import Mathlib

/-!
Shallow embedding of `src/v/cluster/topic_updates_dispatcher.cc` (namespace
`cluster`, class `topic_updates_dispatcher`).

The dispatcher receives decoded controller commands, fans each one out to the
per-shard `topic_table` replicas, checks that all shards returned the same
result, and on success pushes accounting side effects to three external
collaborators: the partition allocator, the partition balancer stateum and the
partition leaders table.

Modelling choices:
* the external `topic_table` is represented by `TopicTableState`, a record of
  the query functions the dispatcher actually calls before the fan-out;
* the per-shard apply results are an input (`shardApply : Nat → ErrorCode`)
  because the shards' own mutation logic is an external collaborator;
* side effects on the allocator / balancer / leaders table are recorded as an
  ordered list of `Event`s, in exactly the order the C++ issues the calls;
* `vassert` failures and undefined behaviour (dereferencing `begin()` of an
  empty vector) are modelled by `Except Abort`, keeping fatal conditions
  structurally distinct from the ordinary `ErrorCode` channel;
* `subtract_replica_sets`, `union_replica_sets` and `get_allocation_domain`
  live in `cluster_utils.cc`, which is not part of the sources; they are
  modelled from the spec as noted on their doc comments.
-/

namespace TopicUpdatesDispatcher

/-- One placement slot: a node id together with a core (shard) index,
mirroring `model::broker_shard`. -/
structure BrokerShard where
  node_id : Nat
  shard : Nat
deriving DecidableEq, Repr, Inhabited

/-- A replica set is the C++ `std::vector<model::broker_shard>`; comparisons
in the dispatcher (`target_replicas == command_replicas`) are elementwise
vector equality, so the model keeps the list structure. -/
abbrev ReplicaSet := List BrokerShard

/-- Mirrors `model::topic_namespace`: a namespace and a topic name
(both abstracted to numeric identifiers). -/
structure TopicNamespace where
  ns : Nat
  tp : Nat
deriving DecidableEq, Repr, Inhabited

/-- Mirrors `model::ntp`: namespace, topic and partition id. -/
structure NTP where
  ns : Nat
  tp : Nat
  partition : Nat
deriving DecidableEq, Repr, Inhabited

/-- Mirrors `cluster::partition_assignment`: partition id, raft group id and
the current replica set. -/
structure PartitionAssignment where
  id : Nat
  group : Nat
  replicas : ReplicaSet
deriving DecidableEq, Repr, Inhabited

/-- Mirrors `cluster::reconfiguration_state` as used by
`collect_in_progress`; the spec's MovementState. -/
inductive ReconfigurationState where
  | inProgress
  | cancelled
  | forceCancelled
deriving DecidableEq, Repr, Inhabited

/-- One entry of `topic_table::updates_in_progress()`: the state of the
pending reconfiguration plus its previous and target replica sets. -/
structure InProgressUpdate where
  state : ReconfigurationState
  previous : ReplicaSet
  target : ReplicaSet
deriving DecidableEq, Repr, Inhabited

/-- Mirrors `cluster::partition_allocation_domain`. -/
inductive AllocationDomain where
  | common
  | internal
deriving DecidableEq, Repr, Inhabited

/-- Mirrors the `std::error_code` values the dispatcher compares against
(`errc::success` is the zero value, so `!ec` and `ec == errc::success`
coincide); further catalog rejections are collapsed into `otherError`. -/
inductive ErrorCode where
  | success
  | topic_not_exists
  | partition_not_exists
  | topic_already_exists
  | partition_already_exists
  | otherError (code : Nat)
deriving DecidableEq, Repr, Inhabited

/-- Fatal, non-recoverable conditions: a failed `vassert`, or undefined
behaviour such as dereferencing the first element of an empty vector. Kept
disjoint from `ErrorCode`, which is the normal return channel. -/
inductive Abort where
  | fatalAssert
  | undefined
deriving DecidableEq, Repr, Inhabited

/-- One observable call on an external collaborator, in issue order:
allocator `add_allocations` / `remove_allocations` / `update_allocation_state`,
balancer `handle_ntp_update`, or a per-shard
`partition_leaders_table::update_partition_leader`. -/
inductive Event where
  | allocAdd (rs : ReplicaSet) (d : AllocationDomain)
  | allocRemove (rs : ReplicaSet) (d : AllocationDomain)
  | allocUpdateState (rs : ReplicaSet) (group : Nat) (d : AllocationDomain)
  | balancerUpdate (ns tp pid : Nat) (prev next : ReplicaSet)
  | leaderUpdate (shard : Nat) (ntp : NTP) (term : Nat) (node : Nat)
deriving DecidableEq, Repr, Inhabited

/-- Recognises the leadership-table events among the recorded effects. -/
def Event.isLeaderUpdate : Event → Bool
  | Event.leaderUpdate _ _ _ _ => true
  | _ => false

/-- Modelled from the spec: `subtract_replica_sets` is defined in
`cluster_utils.cc`, which is not among the sources; the spec defines
subtract(A,B) as the targets in A that are not in B. -/
def subtract_replica_sets (a b : ReplicaSet) : ReplicaSet :=
  a.filter (fun r => !b.contains r)

/-- Modelled from the spec: `union_replica_sets` is defined in
`cluster_utils.cc`, which is not among the sources; the spec defines
union(A,B) as the distinct targets from both sides. -/
def union_replica_sets (a b : ReplicaSet) : ReplicaSet :=
  a ++ b.filter (fun r => !a.contains r)

/-- Modelled from the spec: `get_allocation_domain` is defined outside the
sources; the spec only requires a deterministic classification of a
`TopicNamespace` into a domain (internal versus common), so one concrete
deterministic choice is fixed here. -/
def get_allocation_domain (t : TopicNamespace) : AllocationDomain :=
  if t.ns = 0 then AllocationDomain.internal else AllocationDomain.common

/-- The NTP overload of `get_allocation_domain`: the domain of a partition is
the domain of its topic namespace. -/
def get_allocation_domain_ntp (n : NTP) : AllocationDomain :=
  get_allocation_domain (TopicNamespace.mk n.ns n.tp)

/-- Snapshot interface of the external `topic_table` collaborator: exactly
the queries the dispatcher performs before the fan-out
(`get_topic_assignments`, `get_partition_assignment`,
`get_previous_replica_set`, `get_target_replica_set`,
`updates_in_progress`). -/
structure TopicTableState where
  topicAssignments : TopicNamespace → Option (List PartitionAssignment)
  partitionAssignment : NTP → Option PartitionAssignment
  previousReplicaSet : NTP → Option ReplicaSet
  targetReplicaSet : NTP → Option ReplicaSet
  updatesInProgress : NTP → Option InProgressUpdate

/-- Mirrors `create_topic_cmd`: topic namespace key plus the new partition
assignments carried in the value. -/
structure CreateTopicCmd where
  key : TopicNamespace
  assignments : List PartitionAssignment
deriving DecidableEq, Repr

/-- Mirrors `delete_topic_cmd`: the C++ reads `cmd.value` for the snapshot
and `cmd.key` for the deallocation, so both fields are kept. -/
structure DeleteTopicCmd where
  key : TopicNamespace
  value : TopicNamespace
deriving DecidableEq, Repr

/-- Mirrors `move_partition_replicas_cmd`: NTP key and the new replica set. -/
structure MovePartitionReplicasCmd where
  key : NTP
  value : ReplicaSet
deriving DecidableEq, Repr

/-- Mirrors `cancel_moving_partition_replicas_cmd`: only the NTP key is read
by the dispatcher. -/
structure CancelMovingPartitionReplicasCmd where
  key : NTP
deriving DecidableEq, Repr

/-- Mirrors `finish_moving_partition_replicas_cmd`: NTP key and the final
replica set carried in the value. -/
structure FinishMovingPartitionReplicasCmd where
  key : NTP
  value : ReplicaSet
deriving DecidableEq, Repr

/-- Mirrors `create_partition_cmd`: topic namespace key plus the newly added
partition assignments. -/
structure CreatePartitionCmd where
  key : TopicNamespace
  assignments : List PartitionAssignment
deriving DecidableEq, Repr

/-- Mirrors `move_topic_replicas_cmd`: topic namespace key and a list of
(partition id, new replica set) pairs. -/
structure MoveTopicReplicasCmd where
  key : TopicNamespace
  value : List (Nat × ReplicaSet)
deriving DecidableEq, Repr

/-- Mirrors `revert_cancel_partition_move_cmd`: the NTP is inside the value. -/
structure RevertCancelPartitionMoveCmd where
  ntp : NTP
deriving DecidableEq, Repr

/-- Mirrors `create_non_replicable_topic_cmd`: source topic and new name. -/
structure CreateNonReplicableTopicCmd where
  source : TopicNamespace
  name : TopicNamespace
deriving DecidableEq, Repr

/-- Mirrors `update_topic_properties_cmd`: only the key matters here. -/
structure UpdateTopicPropertiesCmd where
  key : TopicNamespace
deriving DecidableEq, Repr

/-- Embeds `dispatch_updates_to_cores`: apply the command on every shard
(`boost::irange(0, ss::smp::count)`), then `vassert` that all results are
equal (`std::equal(next(begin), end, begin)`) and return the front result.
A divergence is the fatal assertion; an empty shard range would dereference
`front()` of an empty vector, hence `undefined` (in seastar
`smp::count ≥ 1`). -/
def dispatch_updates_to_cores (numShards : Nat) (shardApply : Nat → ErrorCode) :
    Except Abort ErrorCode :=
  match (List.range numShards).map shardApply with
  | [] => Except.error Abort.undefined
  | r :: rs =>
    if rs.all (fun x => x == r) then Except.ok r else Except.error Abort.fatalAssert

/-- Embeds `update_allocations`: one `update_allocation_state(replicas,
group, domain)` call per assignment, in order. -/
def update_allocations (assignments : List PartitionAssignment)
    (d : AllocationDomain) : List Event :=
  assignments.map (fun p => Event.allocUpdateState p.replicas p.group d)

/-- Embeds `update_leaders_with_estimates`: for every collected (ntp, leader)
pair, `invoke_on_all` updates each shard's leaders table with the fixed
sentinel `model::term_id(1)`. -/
def update_leaders_with_estimates (numShards : Nat)
    (leaders : List (NTP × Nat)) : List Event :=
  leaders.flatMap
    (fun l => (List.range numShards).map (fun s => Event.leaderUpdate s l.1 1 l.2))

/-- Embeds the per-assignment loop of `apply(create_topic_cmd)`: a balancer
`handle_ntp_update({} → replicas)` per partition while collecting the
(ntp, first replica node) leader estimates; `replicas.begin()->node_id` on an
empty replica set is undefined behaviour. -/
def create_topic_loop (tp_ns : TopicNamespace) :
    List PartitionAssignment → Except Abort (List Event × List (NTP × Nat))
  | [] => Except.ok ([], [])
  | p :: rest =>
    match p.replicas.head? with
    | none => Except.error Abort.undefined
    | some r =>
      match create_topic_loop tp_ns rest with
      | Except.error a => Except.error a
      | Except.ok (evs, ls) =>
        Except.ok
          (Event.balancerUpdate tp_ns.ns tp_ns.tp p.id [] p.replicas :: evs,
           (NTP.mk tp_ns.ns tp_ns.tp p.id, r.node_id) :: ls)

/-- Embeds `apply(create_topic_cmd)` after the fan-out returned `ec`: on
success registers the assignments with the allocator, notifies the balancer
per partition and broadcasts the estimated leaders; otherwise returns `ec`
unchanged. -/
def apply_create_topic (cmd : CreateTopicCmd) (ec : ErrorCode)
    (numShards : Nat) : Except Abort (ErrorCode × List Event) :=
  if ec = ErrorCode.success then
    match create_topic_loop cmd.key cmd.assignments with
    | Except.error a => Except.error a
    | Except.ok (evs, leaders) =>
      Except.ok (ErrorCode.success,
        update_allocations cmd.assignments (get_allocation_domain cmd.key)
          ++ evs ++ update_leaders_with_estimates numShards leaders)
  else Except.ok (ec, [])

/-- The replica set `collect_in_progress` records for one pending update: the
previous replicas when the state is `in_progress`, otherwise (`cancelled` or
`force_cancelled`, any other state being impossible for the three-valued
type, which is what the `vassert` there checks) the target replicas. -/
def in_progress_side (u : InProgressUpdate) : ReplicaSet :=
  match u.state with
  | ReconfigurationState.inProgress => u.previous
  | _ => u.target

/-- Embeds `collect_in_progress`: for each current assignment with a pending
update, record the side selected by `in_progress_side` under the partition
id. -/
def collect_in_progress (tbl : TopicTableState) (tp_ns : TopicNamespace)
    (current : List PartitionAssignment) : List (Nat × ReplicaSet) :=
  current.filterMap (fun p =>
    match tbl.updatesInProgress (NTP.mk tp_ns.ns tp_ns.tp p.id) with
    | none => none
    | some u => some (p.id, in_progress_side u))

/-- Embeds `deallocate_topic`: per assignment, remove from the allocator the
current replicas, unioned with the in-progress side recorded for that
partition id when one exists. -/
def deallocate_topic (topic_assignments : List PartitionAssignment)
    (in_progress : List (Nat × ReplicaSet)) (d : AllocationDomain) :
    List Event :=
  topic_assignments.map (fun p =>
    match in_progress.find? (fun e => e.1 == p.id) with
    | none => Event.allocRemove p.replicas d
    | some e => Event.allocRemove (union_replica_sets e.2 p.replicas) d)

/-- Embeds `apply(delete_topic_cmd)` after the fan-out returned `ec`: the
assignments and in-progress map are snapshotted before the fan-out; on
success the snapshot must exist (`vassert`), the topic is deallocated and the
balancer notified `(replicas → {})` per partition. -/
def apply_delete_topic (tbl : TopicTableState) (cmd : DeleteTopicCmd)
    (ec : ErrorCode) : Except Abort (ErrorCode × List Event) :=
  let topic_assignments := tbl.topicAssignments cmd.value
  let in_progress :=
    match topic_assignments with
    | some tas => collect_in_progress tbl cmd.key tas
    | none => []
  if ec = ErrorCode.success then
    match topic_assignments with
    | none => Except.error Abort.fatalAssert
    | some tas =>
      Except.ok (ec,
        deallocate_topic tas in_progress (get_allocation_domain cmd.key)
          ++ tas.map (fun p =>
            Event.balancerUpdate cmd.key.ns cmd.key.tp p.id p.replicas []))
  else Except.ok (ec, [])

/-- Embeds `apply(move_partition_replicas_cmd)` after the fan-out returned
`ec`: the assignment is snapshotted before the fan-out; on success it must
exist (`vassert`), `subtract(new, old)` is added to the allocator and the
balancer is notified `(old → new)`. -/
def apply_move_partition_replicas (tbl : TopicTableState)
    (cmd : MovePartitionReplicasCmd) (ec : ErrorCode) :
    Except Abort (ErrorCode × List Event) :=
  let p_as := tbl.partitionAssignment cmd.key
  if ec = ErrorCode.success then
    match p_as with
    | none => Except.error Abort.fatalAssert
    | some pas =>
      Except.ok (ec,
        [Event.allocAdd (subtract_replica_sets cmd.value pas.replicas)
           (get_allocation_domain_ntp cmd.key),
         Event.balancerUpdate cmd.key.ns cmd.key.tp cmd.key.partition
           pas.replicas cmd.value])
  else Except.ok (ec, [])

/-- Embeds `apply(cancel_moving_partition_replicas_cmd)` after the fan-out
returned `ec`: on failure `ec` is returned before the assertions run; on
success both snapshots must exist (`vassert`) and the balancer is notified
`(current → previous)`; the allocator is never touched. -/
def apply_cancel_moving_partition_replicas (tbl : TopicTableState)
    (cmd : CancelMovingPartitionReplicasCmd) (ec : ErrorCode) :
    Except Abort (ErrorCode × List Event) :=
  let current_assignment := tbl.partitionAssignment cmd.key
  let new_target_replicas := tbl.previousReplicaSet cmd.key
  if ec = ErrorCode.success then
    match current_assignment, new_target_replicas with
    | some ca, some pr =>
      Except.ok (ec,
        [Event.balancerUpdate cmd.key.ns cmd.key.tp cmd.key.partition
           ca.replicas pr])
    | _, _ => Except.error Abort.fatalAssert
  else Except.ok (ec, [])

/-- Embeds `apply(finish_moving_partition_replicas_cmd)` after the fan-out
returned `ec`: on success the previous and target snapshots must exist
(`vassert`); if the command's final set equals the target the move finished
and `subtract(previous, final)` is removed from the allocator, otherwise the
final set must equal the previous one (`vassert`) and
`subtract(target, final)` is removed; the balancer is never notified. -/
def apply_finish_moving_partition_replicas (tbl : TopicTableState)
    (cmd : FinishMovingPartitionReplicasCmd) (ec : ErrorCode) :
    Except Abort (ErrorCode × List Event) :=
  let previous_replicas := tbl.previousReplicaSet cmd.key
  let target_replicas := tbl.targetReplicaSet cmd.key
  if ec = ErrorCode.success then
    match previous_replicas, target_replicas with
    | some prev, some tgt =>
      if tgt = cmd.value then
        Except.ok (ec,
          [Event.allocRemove (subtract_replica_sets prev cmd.value)
             (get_allocation_domain_ntp cmd.key)])
      else if prev = cmd.value then
        Except.ok (ec,
          [Event.allocRemove (subtract_replica_sets tgt cmd.value)
             (get_allocation_domain_ntp cmd.key)])
      else Except.error Abort.fatalAssert
    | _, _ => Except.error Abort.fatalAssert
  else Except.ok (ec, [])

/-- Embeds `apply(update_topic_properties_cmd)`: a pure catalog change, the
fan-out result is passed through with no side effects. -/
def apply_update_topic_properties (_cmd : UpdateTopicPropertiesCmd)
    (ec : ErrorCode) : Except Abort (ErrorCode × List Event) :=
  Except.ok (ec, [])

/-- Embeds `apply(create_partition_cmd)` after the fan-out returned `ec`: on
success registers the new assignments with the allocator and notifies the
balancer `({} → replicas)` per partition; unlike `create_topic` no leadership
estimate is broadcast. -/
def apply_create_partition (cmd : CreatePartitionCmd) (ec : ErrorCode) :
    Except Abort (ErrorCode × List Event) :=
  if ec = ErrorCode.success then
    Except.ok (ec,
      update_allocations cmd.assignments (get_allocation_domain cmd.key)
        ++ cmd.assignments.map (fun p =>
          Event.balancerUpdate cmd.key.ns cmd.key.tp p.id [] p.replicas))
  else Except.ok (ec, [])

/-- Embeds `apply(create_non_replicable_topic_cmd)` after the fan-out
returned `ec`: the source topic's assignments are snapshotted before the
fan-out; on success they must exist (`vassert`) and are registered under the
new topic's allocation domain; no balancer or leadership calls. -/
def apply_create_non_replicable_topic (tbl : TopicTableState)
    (cmd : CreateNonReplicableTopicCmd) (ec : ErrorCode) :
    Except Abort (ErrorCode × List Event) :=
  let assignments := tbl.topicAssignments cmd.source
  if ec = ErrorCode.success then
    match assignments with
    | none => Except.error Abort.fatalAssert
    | some p_as =>
      Except.ok (ec, update_allocations p_as (get_allocation_domain cmd.name))
  else Except.ok (ec, [])

/-- Embeds the per-entry loop of `apply(move_topic_replicas_cmd)`: walk the
command's (partition id, new replicas) pairs; an id absent from the snapshot
returns `partition_not_exists` immediately, keeping the effects already
issued for earlier entries; a present id adds `subtract(new, old)` to the
allocator and notifies the balancer `(old → new)`. -/
def move_topic_replicas_loop (tp_ns : TopicNamespace)
    (assignments : List PartitionAssignment) :
    List (Nat × ReplicaSet) → ErrorCode × List Event
  | [] => (ErrorCode.success, [])
  | (pid, replicas) :: rest =>
    match assignments.find? (fun p => p.id == pid) with
    | none => (ErrorCode.partition_not_exists, [])
    | some pas =>
      let r := move_topic_replicas_loop tp_ns assignments rest
      (r.1,
        Event.allocAdd (subtract_replica_sets replicas pas.replicas)
          (get_allocation_domain_ntp (NTP.mk tp_ns.ns tp_ns.tp pid))
          :: Event.balancerUpdate tp_ns.ns tp_ns.tp pid pas.replicas replicas
          :: r.2)

/-- Embeds `apply(move_topic_replicas_cmd)` after the fan-out returned `ec`:
note the C++ checks the snapshot's presence before looking at `ec`, so an
absent topic returns `topic_not_exists` regardless of the fan-out result; on
a successful fan-out the per-entry loop runs. -/
def apply_move_topic_replicas (tbl : TopicTableState)
    (cmd : MoveTopicReplicasCmd) (ec : ErrorCode) :
    Except Abort (ErrorCode × List Event) :=
  match tbl.topicAssignments cmd.key with
  | none => Except.ok (ErrorCode.topic_not_exists, [])
  | some assignments =>
    if ec = ErrorCode.success then
      Except.ok (move_topic_replicas_loop cmd.key assignments cmd.value)
    else Except.ok (ec, [])

/-- Embeds `apply(revert_cancel_partition_move_cmd)` after the fan-out
returned `ec`: on success the previous and target snapshots must exist
(`vassert`), `subtract(previous, target)` is removed from the allocator and
the balancer is notified `(previous → target)`. -/
def apply_revert_cancel_partition_move (tbl : TopicTableState)
    (cmd : RevertCancelPartitionMoveCmd) (ec : ErrorCode) :
    Except Abort (ErrorCode × List Event) :=
  let previous_replicas := tbl.previousReplicaSet cmd.ntp
  let target_replicas := tbl.targetReplicaSet cmd.ntp
  if ec = ErrorCode.success then
    match previous_replicas, target_replicas with
    | some prev, some tgt =>
      Except.ok (ec,
        [Event.allocRemove (subtract_replica_sets prev tgt)
           (get_allocation_domain_ntp cmd.ntp),
         Event.balancerUpdate cmd.ntp.ns cmd.ntp.tp cmd.ntp.partition
           prev tgt])
    | _, _ => Except.error Abort.fatalAssert
  else Except.ok (ec, [])

/-- Helper: `dispatch_updates_to_cores` on a positive shard count reduces to
an all-equal test of the later shards' results against shard 0's. -/
lemma dispatch_eq (n : Nat) (f : Nat → ErrorCode) :
    dispatch_updates_to_cores (n + 1) f =
      (if ((List.range n).map (fun i => f (i + 1))).all (fun x => x == f 0)
       then Except.ok (f 0) else Except.error Abort.fatalAssert) := by
  unfold dispatch_updates_to_cores
  rw [List.range_succ_eq_map]
  simp [List.map_map, Function.comp_def]

/-- C1: the dispatcher applies the command on all `numShards` shard replicas;
when every shard's result agrees with shard 0's the common result is returned
through the normal channel, and when any two shards disagree the dispatcher
halts with the fatal assertion instead of returning an error code. -/
theorem dispatch_updates_consistency (numShards : Nat) (f : Nat → ErrorCode)
    (hn : 0 < numShards) :
    ((∀ i, i < numShards → f i = f 0) →
        dispatch_updates_to_cores numShards f = Except.ok (f 0)) ∧
    ((∃ i j, i < numShards ∧ j < numShards ∧ f i ≠ f j) →
        dispatch_updates_to_cores numShards f = Except.error Abort.fatalAssert) := by
  obtain ⟨n, rfl⟩ : ∃ n, numShards = n + 1 :=
    ⟨numShards - 1, (Nat.succ_pred_eq_of_pos hn).symm⟩
  rw [dispatch_eq]
  constructor
  · intro h
    have hall : ((List.range n).map (fun i => f (i + 1))).all
        (fun x => x == f 0) = true := by
      rw [List.all_eq_true]
      intro x hx
      rw [List.mem_map] at hx
      obtain ⟨i, hi, rfl⟩ := hx
      rw [List.mem_range] at hi
      exact beq_iff_eq.mpr (h (i + 1) (Nat.succ_lt_succ hi))
    rw [hall]
    rfl
  · rintro ⟨i, j, hi, hj, hne⟩
    have hx : ∃ k, k < n ∧ f (k + 1) ≠ f 0 := by
      by_cases h0 : f i = f 0
      · have hj0 : f j ≠ f 0 := fun hjeq => hne (h0.trans hjeq.symm)
        have hjne : j ≠ 0 := fun hz => hj0 (by rw [hz])
        obtain ⟨k, rfl⟩ : ∃ k, j = k + 1 :=
          ⟨j - 1, (Nat.succ_pred_eq_of_pos (Nat.pos_of_ne_zero hjne)).symm⟩
        exact ⟨k, Nat.lt_of_succ_lt_succ hj, hj0⟩
      · have hine : i ≠ 0 := fun hz => h0 (by rw [hz])
        obtain ⟨k, rfl⟩ : ∃ k, i = k + 1 :=
          ⟨i - 1, (Nat.succ_pred_eq_of_pos (Nat.pos_of_ne_zero hine)).symm⟩
        exact ⟨k, Nat.lt_of_succ_lt_succ hi, h0⟩
    obtain ⟨k, hk, hkne⟩ := hx
    have hall : ((List.range n).map (fun i => f (i + 1))).all
        (fun x => x == f 0) = false := by
      rw [List.all_eq_false]
      exact ⟨f (k + 1), List.mem_map.mpr ⟨k, List.mem_range.mpr hk, rfl⟩,
        by simpa using hkne⟩
    rw [hall]
    rfl

/-- Witness for C1 at concrete inputs: three agreeing shards return the
common result; two disagreeing shards hit the fatal assertion. -/
theorem dispatch_updates_consistency_witness :
    dispatch_updates_to_cores 3 (fun _ => ErrorCode.success)
        = Except.ok ErrorCode.success ∧
    dispatch_updates_to_cores 2
        (fun i => if i = 0 then ErrorCode.success else ErrorCode.topic_not_exists)
        = Except.error Abort.fatalAssert := by
  constructor
  · exact (dispatch_updates_consistency 3 (fun _ => ErrorCode.success)
      (by decide)).1 (fun i _ => rfl)
  · exact (dispatch_updates_consistency 2
      (fun i => if i = 0 then ErrorCode.success else ErrorCode.topic_not_exists)
      (by decide)).2 ⟨0, 1, by decide, by decide, by decide⟩

/-- C5: on a successful fan-out, `apply(move_partition_replicas_cmd)` adds
exactly `subtract(new, old)` to the allocator (it removes nothing) and makes
exactly one balancer notification `(old → new)`, where old is the assignment
snapshotted before the fan-out. -/
theorem move_partition_replicas_effects (tbl : TopicTableState)
    (cmd : MovePartitionReplicasCmd) (pas : PartitionAssignment)
    (h : tbl.partitionAssignment cmd.key = some pas) :
    apply_move_partition_replicas tbl cmd ErrorCode.success =
      Except.ok (ErrorCode.success,
        [Event.allocAdd (subtract_replica_sets cmd.value pas.replicas)
           (get_allocation_domain_ntp cmd.key),
         Event.balancerUpdate cmd.key.ns cmd.key.tp cmd.key.partition
           pas.replicas cmd.value]) := by
  simp [apply_move_partition_replicas, h]

/-- Witness for C5, the spec's Scenario B: `orders/0` currently on nodes
{1,2,3}, moved to {1,2,4}; exactly node 4 is added to the allocator and the
balancer sees ({1,2,3} → {1,2,4}). -/
theorem move_partition_replicas_effects_witness :
    apply_move_partition_replicas
        (TopicTableState.mk (fun _ => none)
          (fun k => if k = NTP.mk 1 2 0 then
              some (PartitionAssignment.mk 0 7
                [BrokerShard.mk 1 0, BrokerShard.mk 2 0, BrokerShard.mk 3 0])
            else none)
          (fun _ => none) (fun _ => none) (fun _ => none))
        (MovePartitionReplicasCmd.mk (NTP.mk 1 2 0)
          [BrokerShard.mk 1 0, BrokerShard.mk 2 0, BrokerShard.mk 4 0])
        ErrorCode.success =
      Except.ok (ErrorCode.success,
        [Event.allocAdd [BrokerShard.mk 4 0] AllocationDomain.common,
         Event.balancerUpdate 1 2 0
           [BrokerShard.mk 1 0, BrokerShard.mk 2 0, BrokerShard.mk 3 0]
           [BrokerShard.mk 1 0, BrokerShard.mk 2 0, BrokerShard.mk 4 0]]) := by
  rw [move_partition_replicas_effects _ _
    (PartitionAssignment.mk 0 7
      [BrokerShard.mk 1 0, BrokerShard.mk 2 0, BrokerShard.mk 3 0]) rfl]
  rfl

/-- C8: on a successful fan-out, `apply(cancel_moving_partition_replicas_cmd)`
never touches the allocator and makes exactly one balancer notification
(current snapshotted assignment → previous replica set of the move). -/
theorem cancel_moving_effects (tbl : TopicTableState)
    (cmd : CancelMovingPartitionReplicasCmd) (ca : PartitionAssignment)
    (pr : ReplicaSet)
    (h1 : tbl.partitionAssignment cmd.key = some ca)
    (h2 : tbl.previousReplicaSet cmd.key = some pr) :
    apply_cancel_moving_partition_replicas tbl cmd ErrorCode.success =
      Except.ok (ErrorCode.success,
        [Event.balancerUpdate cmd.key.ns cmd.key.tp cmd.key.partition
           ca.replicas pr]) := by
  simp [apply_cancel_moving_partition_replicas, h1, h2]

/-- Witness for C8: cancelling the Scenario B move issues the single
balancer call ({1,2,4} → {1,2,3}) and no allocator event. -/
theorem cancel_moving_effects_witness :
    apply_cancel_moving_partition_replicas
        (TopicTableState.mk (fun _ => none)
          (fun k => if k = NTP.mk 1 2 0 then
              some (PartitionAssignment.mk 0 7
                [BrokerShard.mk 1 0, BrokerShard.mk 2 0, BrokerShard.mk 4 0])
            else none)
          (fun k => if k = NTP.mk 1 2 0 then
              some [BrokerShard.mk 1 0, BrokerShard.mk 2 0, BrokerShard.mk 3 0]
            else none)
          (fun _ => none) (fun _ => none))
        (CancelMovingPartitionReplicasCmd.mk (NTP.mk 1 2 0))
        ErrorCode.success =
      Except.ok (ErrorCode.success,
        [Event.balancerUpdate 1 2 0
           [BrokerShard.mk 1 0, BrokerShard.mk 2 0, BrokerShard.mk 4 0]
           [BrokerShard.mk 1 0, BrokerShard.mk 2 0, BrokerShard.mk 3 0]]) := by
  rw [cancel_moving_effects _ _
    (PartitionAssignment.mk 0 7
      [BrokerShard.mk 1 0, BrokerShard.mk 2 0, BrokerShard.mk 4 0])
    [BrokerShard.mk 1 0, BrokerShard.mk 2 0, BrokerShard.mk 3 0] rfl rfl]

/-- C3: on a successful fan-out, `apply(finish_moving_partition_replicas_cmd)`
releases `subtract(previous, target)` when the command's final set equals the
recorded target, releases `subtract(target, previous)` when it instead equals
the recorded previous set, and hits a fatal assertion otherwise; no balancer
notification is made in any branch. -/
theorem finish_moving_effects (tbl : TopicTableState)
    (cmd : FinishMovingPartitionReplicasCmd) (prev tgt : ReplicaSet)
    (hp : tbl.previousReplicaSet cmd.key = some prev)
    (ht : tbl.targetReplicaSet cmd.key = some tgt) :
    apply_finish_moving_partition_replicas tbl cmd ErrorCode.success =
      (if cmd.value = tgt then
        Except.ok (ErrorCode.success,
          [Event.allocRemove (subtract_replica_sets prev tgt)
             (get_allocation_domain_ntp cmd.key)])
      else if cmd.value = prev then
        Except.ok (ErrorCode.success,
          [Event.allocRemove (subtract_replica_sets tgt prev)
             (get_allocation_domain_ntp cmd.key)])
      else Except.error Abort.fatalAssert) := by
  by_cases h1 : cmd.value = tgt
  · subst h1
    simp [apply_finish_moving_partition_replicas, hp, ht]
  · by_cases h2 : cmd.value = prev
    · subst h2
      simp [apply_finish_moving_partition_replicas, hp, ht, h1, Ne.symm h1]
    · simp [apply_finish_moving_partition_replicas, hp, ht, h1, h2,
        Ne.symm h1, Ne.symm h2]

/-- Witness for C3, the spec's Scenarios C and D folded into the theorem's
if-chain at Scenario C's input: previous {1,2,3}, target {1,2,4}, finish
command carrying {1,2,4} releases exactly node 3 and makes no balancer
call. -/
theorem finish_moving_effects_witness :
    apply_finish_moving_partition_replicas
        (TopicTableState.mk (fun _ => none) (fun _ => none)
          (fun k => if k = NTP.mk 1 2 0 then
              some [BrokerShard.mk 1 0, BrokerShard.mk 2 0, BrokerShard.mk 3 0]
            else none)
          (fun k => if k = NTP.mk 1 2 0 then
              some [BrokerShard.mk 1 0, BrokerShard.mk 2 0, BrokerShard.mk 4 0]
            else none)
          (fun _ => none))
        (FinishMovingPartitionReplicasCmd.mk (NTP.mk 1 2 0)
          [BrokerShard.mk 1 0, BrokerShard.mk 2 0, BrokerShard.mk 4 0])
        ErrorCode.success =
      Except.ok (ErrorCode.success,
        [Event.allocRemove [BrokerShard.mk 3 0] AllocationDomain.common]) := by
  rw [finish_moving_effects _ _
    [BrokerShard.mk 1 0, BrokerShard.mk 2 0, BrokerShard.mk 3 0]
    [BrokerShard.mk 1 0, BrokerShard.mk 2 0, BrokerShard.mk 4 0] rfl rfl]
  rfl

/-- C9: a successful fan-out for `delete_topic_cmd` with an absent
topic-assignments snapshot, or for `move_partition_replicas_cmd` with an
absent partition-assignment snapshot, halts via the fatal assertion rather
than returning an error code. -/
theorem missing_snapshot_fatal (tbl : TopicTableState) (cmdD : DeleteTopicCmd)
    (cmdM : MovePartitionReplicasCmd)
    (h1 : tbl.topicAssignments cmdD.value = none)
    (h2 : tbl.partitionAssignment cmdM.key = none) :
    apply_delete_topic tbl cmdD ErrorCode.success
        = Except.error Abort.fatalAssert ∧
    apply_move_partition_replicas tbl cmdM ErrorCode.success
        = Except.error Abort.fatalAssert := by
  constructor
  · simp [apply_delete_topic, h1]
  · simp [apply_move_partition_replicas, h2]

/-- Witness for C9 on the empty catalog: both handlers abort fatally after a
successful fan-out when their snapshots are absent. -/
theorem missing_snapshot_fatal_witness :
    apply_delete_topic
        (TopicTableState.mk (fun _ => none) (fun _ => none) (fun _ => none)
          (fun _ => none) (fun _ => none))
        (DeleteTopicCmd.mk (TopicNamespace.mk 1 2) (TopicNamespace.mk 1 2))
        ErrorCode.success = Except.error Abort.fatalAssert ∧
    apply_move_partition_replicas
        (TopicTableState.mk (fun _ => none) (fun _ => none) (fun _ => none)
          (fun _ => none) (fun _ => none))
        (MovePartitionReplicasCmd.mk (NTP.mk 1 2 0) [BrokerShard.mk 1 0])
        ErrorCode.success = Except.error Abort.fatalAssert :=
  missing_snapshot_fatal _ _ _ rfl rfl

/-- A catalog snapshot with no topics, partitions or pending moves, used as a
fixture by several witnesses. -/
def emptyTable : TopicTableState :=
  TopicTableState.mk (fun _ => none) (fun _ => none) (fun _ => none)
    (fun _ => none) (fun _ => none)

/-- Helper: under the precondition that every assignment carries a non-empty
replica set, the `create_topic` per-assignment loop produces one balancer
event per assignment and collects (ntp, first replica node) leader pairs. -/
lemma create_topic_loop_eq (tp_ns : TopicNamespace)
    (as : List PartitionAssignment) (h : ∀ p ∈ as, p.replicas ≠ []) :
    create_topic_loop tp_ns as = Except.ok
      (as.map (fun p =>
        Event.balancerUpdate tp_ns.ns tp_ns.tp p.id [] p.replicas),
       as.map (fun p =>
        (NTP.mk tp_ns.ns tp_ns.tp p.id, p.replicas.headI.node_id))) := by
  induction as with
  | nil => rfl
  | cons p rest ih =>
    have hp : p.replicas ≠ [] := h p (List.mem_cons_self p rest)
    have hrest : ∀ q ∈ rest, q.replicas ≠ [] :=
      fun q hq => h q (List.mem_cons_of_mem p hq)
    cases hrep : p.replicas with
    | nil => exact absurd hrep hp
    | cons a t =>
      simp [create_topic_loop, hrep, ih hrest]

/-- C10: with every partition assignment carrying a non-empty replica set
(the first element would be undefined otherwise), `apply(create_topic_cmd)`
on a successful fan-out registers the assignments, notifies the balancer per
partition, and broadcasts estimated leaders via
`update_leaders_with_estimates`, which issues, for every partition,
one `update_partition_leader` per shard with the node of the first replica
and always the fixed sentinel term 1. -/
theorem create_topic_effects (cmd : CreateTopicCmd) (numShards : Nat)
    (h : ∀ p ∈ cmd.assignments, p.replicas ≠ []) :
    apply_create_topic cmd ErrorCode.success numShards =
      Except.ok (ErrorCode.success,
        update_allocations cmd.assignments (get_allocation_domain cmd.key)
          ++ cmd.assignments.map (fun p =>
              Event.balancerUpdate cmd.key.ns cmd.key.tp p.id [] p.replicas)
          ++ update_leaders_with_estimates numShards
              (cmd.assignments.map (fun p =>
                (NTP.mk cmd.key.ns cmd.key.tp p.id,
                 p.replicas.headI.node_id)))) := by
  simp [apply_create_topic, create_topic_loop_eq cmd.key cmd.assignments h]

/-- Witness for C10, the spec's Scenario A shrunk to one partition on two
shards: replicas {1,2,3}; both shards' leadership tables get leader node 1
with term 1. -/
theorem create_topic_effects_witness :
    apply_create_topic
        (CreateTopicCmd.mk (TopicNamespace.mk 1 5)
          [PartitionAssignment.mk 0 7
            [BrokerShard.mk 1 0, BrokerShard.mk 2 0, BrokerShard.mk 3 0]])
        ErrorCode.success 2 =
      Except.ok (ErrorCode.success,
        [Event.allocUpdateState
           [BrokerShard.mk 1 0, BrokerShard.mk 2 0, BrokerShard.mk 3 0] 7
           AllocationDomain.common,
         Event.balancerUpdate 1 5 0 []
           [BrokerShard.mk 1 0, BrokerShard.mk 2 0, BrokerShard.mk 3 0],
         Event.leaderUpdate 0 (NTP.mk 1 5 0) 1 1,
         Event.leaderUpdate 1 (NTP.mk 1 5 0) 1 1]) := by
  rw [create_topic_effects _ 2 (by decide)]
  rfl

/-- Counterexample for C6: for a concrete one-partition
`create_partition_cmd` with a successful fan-out, the complete effect list
contains the allocator registration and the balancer notification but zero
leadership-table updates, contradicting the claim that an estimated leader is
set as in `create_topic`. -/
theorem create_partition_no_leader_counterexample :
    apply_create_partition
        (CreatePartitionCmd.mk (TopicNamespace.mk 1 5)
          [PartitionAssignment.mk 0 7
            [BrokerShard.mk 1 0, BrokerShard.mk 2 0, BrokerShard.mk 3 0]])
        ErrorCode.success =
      Except.ok (ErrorCode.success,
        [Event.allocUpdateState
           [BrokerShard.mk 1 0, BrokerShard.mk 2 0, BrokerShard.mk 3 0] 7
           AllocationDomain.common,
         Event.balancerUpdate 1 5 0 []
           [BrokerShard.mk 1 0, BrokerShard.mk 2 0, BrokerShard.mk 3 0]]) ∧
    List.countP Event.isLeaderUpdate
        [Event.allocUpdateState
           [BrokerShard.mk 1 0, BrokerShard.mk 2 0, BrokerShard.mk 3 0] 7
           AllocationDomain.common,
         Event.balancerUpdate 1 5 0 []
           [BrokerShard.mk 1 0, BrokerShard.mk 2 0, BrokerShard.mk 3 0]] = 0 :=
  ⟨rfl, rfl⟩

/-- C6 as amended: on a successful fan-out, `apply(create_partition_cmd)`
registers each new assignment with the allocator under the topic's domain and
notifies the balancer of (empty → replicas) per partition, exactly as
`create_topic` does, but unlike `create_topic` it performs no
leadership-table update at all. -/
theorem create_partition_effects (cmd : CreatePartitionCmd) :
    apply_create_partition cmd ErrorCode.success =
      Except.ok (ErrorCode.success,
        update_allocations cmd.assignments (get_allocation_domain cmd.key)
          ++ cmd.assignments.map (fun p =>
              Event.balancerUpdate cmd.key.ns cmd.key.tp p.id [] p.replicas)) ∧
    List.countP Event.isLeaderUpdate
        (update_allocations cmd.assignments (get_allocation_domain cmd.key)
          ++ cmd.assignments.map (fun p =>
              Event.balancerUpdate cmd.key.ns cmd.key.tp p.id [] p.replicas))
        = 0 := by
  constructor
  · simp [apply_create_partition]
  · rw [List.countP_append]
    simp [update_allocations, List.countP_map, Function.comp_def,
      Event.isLeaderUpdate]

/-- Counterexample for C2: `apply(move_topic_replicas_cmd)` consults the
pre-fan-out snapshot before looking at the fan-out result, so with an absent
topic snapshot and a non-Success fan-out result it returns
`topic_not_exists`, not the fan-out result. -/
theorem fanout_result_not_returned_counterexample :
    apply_move_topic_replicas emptyTable
        (MoveTopicReplicasCmd.mk (TopicNamespace.mk 1 5) [])
        (ErrorCode.otherError 3) =
      Except.ok (ErrorCode.topic_not_exists, []) ∧
    ErrorCode.topic_not_exists ≠ ErrorCode.otherError 3 :=
  ⟨rfl, by decide⟩

/-- C2 as amended: a non-Success fan-out result is returned unchanged with no
side effect by every handler except `move_topic_replicas`, which behaves the
same way when the pre-fan-out topic snapshot exists but returns
`topic_not_exists` (still with no side effect) when it does not. -/
theorem non_success_fanout_frame (tbl : TopicTableState) (ec : ErrorCode)
    (h : ec ≠ ErrorCode.success) :
    (∀ cmd numShards,
      apply_create_topic cmd ec numShards = Except.ok (ec, [])) ∧
    (∀ cmd, apply_delete_topic tbl cmd ec = Except.ok (ec, [])) ∧
    (∀ cmd, apply_move_partition_replicas tbl cmd ec = Except.ok (ec, [])) ∧
    (∀ cmd, apply_cancel_moving_partition_replicas tbl cmd ec
        = Except.ok (ec, [])) ∧
    (∀ cmd, apply_finish_moving_partition_replicas tbl cmd ec
        = Except.ok (ec, [])) ∧
    (∀ cmd, apply_update_topic_properties cmd ec = Except.ok (ec, [])) ∧
    (∀ cmd, apply_create_partition cmd ec = Except.ok (ec, [])) ∧
    (∀ cmd, apply_create_non_replicable_topic tbl cmd ec
        = Except.ok (ec, [])) ∧
    (∀ cmd, apply_revert_cancel_partition_move tbl cmd ec
        = Except.ok (ec, [])) ∧
    (∀ cmd : MoveTopicReplicasCmd, (tbl.topicAssignments cmd.key).isSome →
        apply_move_topic_replicas tbl cmd ec = Except.ok (ec, [])) ∧
    (∀ cmd : MoveTopicReplicasCmd, tbl.topicAssignments cmd.key = none →
        apply_move_topic_replicas tbl cmd ec
          = Except.ok (ErrorCode.topic_not_exists, [])) := by
  refine ⟨?_, ?_, ?_, ?_, ?_, ?_, ?_, ?_, ?_, ?_, ?_⟩
  · intro cmd numShards
    simp [apply_create_topic, h]
  · intro cmd
    simp [apply_delete_topic, h]
  · intro cmd
    simp [apply_move_partition_replicas, h]
  · intro cmd
    simp [apply_cancel_moving_partition_replicas, h]
  · intro cmd
    simp [apply_finish_moving_partition_replicas, h]
  · intro cmd
    rfl
  · intro cmd
    simp [apply_create_partition, h]
  · intro cmd
    simp [apply_create_non_replicable_topic, h]
  · intro cmd
    simp [apply_revert_cancel_partition_move, h]
  · intro cmd hs
    cases hx : tbl.topicAssignments cmd.key with
    | none => rw [hx] at hs; cases hs
    | some as => simp [apply_move_topic_replicas, hx, h]
  · intro cmd hx
    simp [apply_move_topic_replicas, hx]

/-- Witness for C2 as amended: with a failing fan-out result, the
`create_topic` handler returns it unchanged with no effects. -/
theorem non_success_fanout_frame_witness :
    apply_create_topic (CreateTopicCmd.mk (TopicNamespace.mk 1 5) [])
        (ErrorCode.otherError 3) 2
      = Except.ok (ErrorCode.otherError 3, []) :=
  (non_success_fanout_frame emptyTable (ErrorCode.otherError 3)
    (by decide)).1 (CreateTopicCmd.mk (TopicNamespace.mk 1 5) []) 2

/-- Counterexample for C7: a `move_topic_replicas_cmd` naming an existing
partition 0 and then a missing partition 2 returns the expected rejection
`partition_not_exists`, yet the allocator registration and balancer
notification for partition 0 — a partition named by the command — have
already been issued. -/
theorem rejection_side_effects_counterexample :
    apply_move_topic_replicas
        (TopicTableState.mk
          (fun t => if t = TopicNamespace.mk 1 5 then
              some [PartitionAssignment.mk 0 7 [BrokerShard.mk 1 0]]
            else none)
          (fun _ => none) (fun _ => none) (fun _ => none) (fun _ => none))
        (MoveTopicReplicasCmd.mk (TopicNamespace.mk 1 5)
          [(0, [BrokerShard.mk 2 0]), (2, [BrokerShard.mk 2 0])])
        ErrorCode.success =
      Except.ok (ErrorCode.partition_not_exists,
        [Event.allocAdd [BrokerShard.mk 2 0] AllocationDomain.common,
         Event.balancerUpdate 1 5 0 [BrokerShard.mk 1 0]
           [BrokerShard.mk 2 0]]) ∧
    ([Event.allocAdd [BrokerShard.mk 2 0] AllocationDomain.common,
      Event.balancerUpdate 1 5 0 [BrokerShard.mk 1 0] [BrokerShard.mk 2 0]]
        ≠ ([] : List Event)) :=
  ⟨rfl, by decide⟩

/-- Helper: when the entries before a missing partition id all succeed, the
`move_topic_replicas` loop stops at the missing id with
`partition_not_exists`, keeping exactly the effects of the earlier entries
and issuing none for the missing entry or those after it. -/
lemma move_topic_replicas_loop_split (tp_ns : TopicNamespace)
    (assignments : List PartitionAssignment) (pid : Nat) (rs : ReplicaSet)
    (hmiss : assignments.find? (fun p => p.id == pid) = none)
    (pre post : List (Nat × ReplicaSet)) :
    (move_topic_replicas_loop tp_ns assignments pre).1 = ErrorCode.success →
    move_topic_replicas_loop tp_ns assignments (pre ++ (pid, rs) :: post) =
      (ErrorCode.partition_not_exists,
       (move_topic_replicas_loop tp_ns assignments pre).2) := by
  induction pre with
  | nil =>
    intro _
    simp [move_topic_replicas_loop, hmiss]
  | cons hd tl ih =>
    intro hpre
    obtain ⟨q, qrs⟩ := hd
    cases hq : assignments.find? (fun p => p.id == q) with
    | none =>
      exfalso
      simp [move_topic_replicas_loop, hq] at hpre
    | some pas =>
      have hpre2 :
          (move_topic_replicas_loop tp_ns assignments tl).1
            = ErrorCode.success := by
        simpa [move_topic_replicas_loop, hq] using hpre
      simp [move_topic_replicas_loop, hq, ih hpre2]

/-- C7 as amended: when `apply(move_topic_replicas_cmd)` with a successful
fan-out returns the expected rejection `partition_not_exists` because an
entry names a partition absent from the pre-state snapshot, no side effect
has been made for that absent partition or for any entry after it, but the
allocator registrations and balancer notifications of the entries preceding
it have already been applied; the other handlers make no side effect at all
on an expected rejection. -/
theorem move_topic_partial_effects (tbl : TopicTableState)
    (cmd : MoveTopicReplicasCmd) (assignments : List PartitionAssignment)
    (pre post : List (Nat × ReplicaSet)) (pid : Nat) (rs : ReplicaSet)
    (has : tbl.topicAssignments cmd.key = some assignments)
    (hsplit : cmd.value = pre ++ (pid, rs) :: post)
    (hpre : (move_topic_replicas_loop cmd.key assignments pre).1
        = ErrorCode.success)
    (hmiss : assignments.find? (fun p => p.id == pid) = none) :
    apply_move_topic_replicas tbl cmd ErrorCode.success =
      Except.ok (ErrorCode.partition_not_exists,
        (move_topic_replicas_loop cmd.key assignments pre).2) := by
  simp [apply_move_topic_replicas, has, hsplit,
    move_topic_replicas_loop_split cmd.key assignments pid rs hmiss pre post
      hpre]

/-- Witness for C7 as amended: entries for existing partitions 0 and 1
followed by missing partition 3 leave exactly the four effects of the first
two entries and return `partition_not_exists`. -/
theorem move_topic_partial_effects_witness :
    apply_move_topic_replicas
        (TopicTableState.mk
          (fun t => if t = TopicNamespace.mk 1 5 then
              some [PartitionAssignment.mk 0 7 [BrokerShard.mk 1 0],
                    PartitionAssignment.mk 1 8 [BrokerShard.mk 2 0]]
            else none)
          (fun _ => none) (fun _ => none) (fun _ => none) (fun _ => none))
        (MoveTopicReplicasCmd.mk (TopicNamespace.mk 1 5)
          [(0, [BrokerShard.mk 4 0]), (1, [BrokerShard.mk 5 0]),
           (3, [BrokerShard.mk 6 0])])
        ErrorCode.success =
      Except.ok (ErrorCode.partition_not_exists,
        [Event.allocAdd [BrokerShard.mk 4 0] AllocationDomain.common,
         Event.balancerUpdate 1 5 0 [BrokerShard.mk 1 0] [BrokerShard.mk 4 0],
         Event.allocAdd [BrokerShard.mk 5 0] AllocationDomain.common,
         Event.balancerUpdate 1 5 1 [BrokerShard.mk 2 0]
           [BrokerShard.mk 5 0]]) := by
  rw [move_topic_partial_effects _ _
    [PartitionAssignment.mk 0 7 [BrokerShard.mk 1 0],
     PartitionAssignment.mk 1 8 [BrokerShard.mk 2 0]]
    [(0, [BrokerShard.mk 4 0]), (1, [BrokerShard.mk 5 0])]
    [] 3 [BrokerShard.mk 6 0] rfl rfl rfl rfl]
  rfl

/-- Follows the spec's words for C4: the abandoned side of a pending move is
the previous replica set when the MovementRecord is InProgress, and the
target replica set when it is Cancelled or ForceCancelled. -/
def spec_abandoned_side (u : InProgressUpdate) : ReplicaSet :=
  match u.state with
  | ReconfigurationState.inProgress => u.previous
  | ReconfigurationState.cancelled => u.target
  | ReconfigurationState.forceCancelled => u.target

/-- Follows the spec's words for C4: the set released for one partition of a
deleted topic is the current replica set, unioned with the abandoned side of
its pending move when one exists. -/
def spec_to_delete (tbl : TopicTableState) (tp_ns : TopicNamespace)
    (p : PartitionAssignment) : ReplicaSet :=
  match tbl.updatesInProgress (NTP.mk tp_ns.ns tp_ns.tp p.id) with
  | none => p.replicas
  | some u => union_replica_sets (spec_abandoned_side u) p.replicas

/-- Helper: both side selectors agree on the three-valued state. -/
lemma in_progress_side_eq_spec (u : InProgressUpdate) :
    in_progress_side u = spec_abandoned_side u := by
  cases hu : u.state <;> simp [in_progress_side, spec_abandoned_side, hu]

/-- Helper: a partition id with no pending update never occurs as a key of
the collected in-progress map. -/
lemma collect_in_progress_find_none (tbl : TopicTableState)
    (tp_ns : TopicNamespace) (tas : List PartitionAssignment) (k : Nat)
    (hk : tbl.updatesInProgress (NTP.mk tp_ns.ns tp_ns.tp k) = none) :
    (collect_in_progress tbl tp_ns tas).find? (fun e => e.1 == k) = none := by
  induction tas with
  | nil => rfl
  | cons p rest ih =>
    cases hp : tbl.updatesInProgress (NTP.mk tp_ns.ns tp_ns.tp p.id) with
    | none =>
      simpa [collect_in_progress, List.filterMap_cons, hp]
        using ih
    | some u =>
      have hne : (p.id == k) = false := by
        rw [beq_eq_false_iff_ne]
        intro he
        rw [he, hk] at hp
        cases hp
      simp only [collect_in_progress, List.filterMap_cons, hp]
      rw [List.find?_cons_of_neg _ (by simp [hne])]
      simpa [collect_in_progress] using ih

/-- Helper: for any partition in the assignment list, looking its id up in
the collected in-progress map yields exactly the side selected from its own
pending update, or nothing when it has none. -/
lemma collect_in_progress_find (tbl : TopicTableState)
    (tp_ns : TopicNamespace) (tas : List PartitionAssignment)
    (p : PartitionAssignment) (hp : p ∈ tas) :
    (collect_in_progress tbl tp_ns tas).find? (fun e => e.1 == p.id) =
      Option.map (fun u => (p.id, in_progress_side u))
        (tbl.updatesInProgress (NTP.mk tp_ns.ns tp_ns.tp p.id)) := by
  induction tas with
  | nil => cases hp
  | cons q rest ih =>
    rcases List.mem_cons.mp hp with rfl | hmem
    · cases hq : tbl.updatesInProgress (NTP.mk tp_ns.ns tp_ns.tp p.id) with
      | none =>
        simp only [collect_in_progress, List.filterMap_cons, hq,
          Option.map_none]
        simpa [collect_in_progress]
          using collect_in_progress_find_none tbl tp_ns rest p.id hq
      | some u =>
        simp only [collect_in_progress, List.filterMap_cons, hq]
        rw [List.find?_cons_of_pos _ (by simp)]
        rfl
    · cases hq : tbl.updatesInProgress (NTP.mk tp_ns.ns tp_ns.tp q.id) with
      | none =>
        simpa [collect_in_progress, List.filterMap_cons, hq] using ih hmem
      | some u =>
        by_cases hid : q.id = p.id
        · rw [hid] at hq
          simp only [collect_in_progress, List.filterMap_cons, hq, hid]
          rw [List.find?_cons_of_pos _ (by simp)]
          rfl
        · simp only [collect_in_progress, List.filterMap_cons, hq]
          rw [List.find?_cons_of_neg _ (by simp [hid])]
          simpa [collect_in_progress] using ih hmem

/-- Helper: deallocating a topic against the in-progress map collected from
the same assignments removes, per partition, exactly the spec's `to_delete`
set. -/
lemma deallocate_topic_collect (tbl : TopicTableState)
    (tp_ns : TopicNamespace) (tas : List PartitionAssignment)
    (d : AllocationDomain) :
    deallocate_topic tas (collect_in_progress tbl tp_ns tas) d =
      tas.map (fun p => Event.allocRemove (spec_to_delete tbl tp_ns p) d) := by
  unfold deallocate_topic
  refine List.map_congr_left ?_
  intro p hp
  rw [collect_in_progress_find tbl tp_ns tas p hp]
  cases hq : tbl.updatesInProgress (NTP.mk tp_ns.ns tp_ns.tp p.id) with
  | none => simp [spec_to_delete, hq]
  | some u => simp [spec_to_delete, hq, in_progress_side_eq_spec]

/-- C4: on a successful fan-out, `apply(delete_topic_cmd)` releases, for each
partition of the snapshotted topic, exactly the spec's `to_delete` set — the
current replicas unioned with the abandoned side of a pending move when one
exists (previous when InProgress, target when Cancelled or ForceCancelled) —
and notifies the balancer once per partition of (replicas → empty). -/
theorem delete_topic_effects (tbl : TopicTableState) (cmd : DeleteTopicCmd)
    (tas : List PartitionAssignment)
    (h : tbl.topicAssignments cmd.value = some tas) :
    apply_delete_topic tbl cmd ErrorCode.success =
      Except.ok (ErrorCode.success,
        tas.map (fun p =>
          Event.allocRemove (spec_to_delete tbl cmd.key p)
            (get_allocation_domain cmd.key))
          ++ tas.map (fun p =>
            Event.balancerUpdate cmd.key.ns cmd.key.tp p.id p.replicas [])) := by
  simp [apply_delete_topic, h, deallocate_topic_collect tbl cmd.key tas]

/-- Witness for C4, the spec's Scenario E: one partition currently on nodes
{1,2,4} with an InProgress move whose previous set is {1,2,3}; the allocator
releases the union {1,2,3,4} and the balancer sees ({1,2,4} → empty). -/
theorem delete_topic_effects_witness :
    apply_delete_topic
        (TopicTableState.mk
          (fun t => if t = TopicNamespace.mk 1 5 then
              some [PartitionAssignment.mk 0 7
                [BrokerShard.mk 1 0, BrokerShard.mk 2 0, BrokerShard.mk 4 0]]
            else none)
          (fun _ => none) (fun _ => none) (fun _ => none)
          (fun k => if k = NTP.mk 1 5 0 then
              some (InProgressUpdate.mk ReconfigurationState.inProgress
                [BrokerShard.mk 1 0, BrokerShard.mk 2 0, BrokerShard.mk 3 0]
                [BrokerShard.mk 1 0, BrokerShard.mk 2 0, BrokerShard.mk 4 0])
            else none))
        (DeleteTopicCmd.mk (TopicNamespace.mk 1 5) (TopicNamespace.mk 1 5))
        ErrorCode.success =
      Except.ok (ErrorCode.success,
        [Event.allocRemove
           [BrokerShard.mk 1 0, BrokerShard.mk 2 0, BrokerShard.mk 3 0,
            BrokerShard.mk 4 0] AllocationDomain.common,
         Event.balancerUpdate 1 5 0
           [BrokerShard.mk 1 0, BrokerShard.mk 2 0, BrokerShard.mk 4 0]
           []]) := by
  rw [delete_topic_effects _ _
    [PartitionAssignment.mk 0 7
      [BrokerShard.mk 1 0, BrokerShard.mk 2 0, BrokerShard.mk 4 0]] rfl]
  rfl

end TopicUpdatesDispatcher
